import Mathlib

/-!
Verification of the ESG-sdk Eurostat core: the JSON-stat dataset decoder
(EurostatAPI.process_dataset_to_json in src/eurostat/eurostat_sdk.py), the
file cache (EurostatAPI._load_cache, _cache_response, get_dataset) and the
table filters of the generate_data endpoint (src/eurostat/api.py).

Modelling conventions:
- A Python dict with string keys is an association list in declaration /
  insertion order; dict lookup is List.lookup (first match), dict key
  membership scans the key column.
- A dimension axis stands for the ordered mapping
  dimension[name].category.label, i.e. the list of (category key, label)
  pairs of that axis in declared order.
- The keys of the sparse value mapping are already parsed to Nat (the
  Python code does int(value_key) on string keys); the list order of
  the value mapping is the dict iteration (insertion) order.
- Python exceptions are the error side of Except: a KeyError raised by a
  missing dimension axis becomes DecodeError.missingDimension, the
  ZeroDivisionError of i % 0 becomes DecodeError.zeroDivision, and the
  IndexError of list(keys)[0] on an empty axis becomes
  DecodeError.indexError.
- The numeric observation value is passed through untouched, so it is
  modelled as Int.
- The file writes of process_dataset_to_json (per-indicator JSON/CSV
  exports) do not affect the returned value and are elided; the returned
  json_result maps each indicator, in first-encounter order, to its list
  of observation records, which is exactly what the pandas DataFrame
  round trip serialises.
-/

/-- Ordered category-key / label pairs of one axis, in declared order
(dimension[name].category.label of the payload). -/
abbrev Axis := List (String × String)

/-- One decoded data point as built at lines 172-189 of eurostat_sdk.py:
time and the grouping indicator are resolved labels, while geo and unit
hold whatever list(geo_labels.keys())[0] / list(unit_labels.keys())[0]
evaluate to. -/
structure Obs where
  time : String
  geo : String
  unit : String
  value : Int

deriving instance DecidableEq, Repr for Obs

/-- Indicator-keyed table: association list from indicator label to its
observation rows, in first-encounter order (a Python dict). -/
abbrev Table := List (String × List Obs)

/-- Python exceptions that can escape process_dataset_to_json. -/
inductive DecodeError where
  | missingDimension : String → DecodeError
  | zeroDivision : DecodeError
  | indexError : DecodeError

deriving instance DecidableEq, Repr for DecodeError

/-- The data member of the payload given to process_dataset_to_json:
dimension is present iff the JSON object has the key (the code tests
membership before using it), value is the sparse linear-index mapping. -/
structure DataPayload where
  dimension : Option (List (String × Axis))
  value : List (Nat × Int)

/-- Dict access dimension[name].category.label: returns the axis or the
KeyError the Python lookup raises when the axis is absent. -/
def lookupAxis (dims : List (String × Axis)) (name : String) : Except DecodeError Axis :=
  match dims.lookup name with
  | some a => Except.ok a
  | none => Except.error (DecodeError.missingDimension name)

/-- Appends an observation to the list of its indicator, creating the
entry at the end when the indicator is new — the dict update at lines
180-189 of eurostat_sdk.py. -/
def insertObs : Table → String → Obs → Table
  | [], k, o => [(k, [o])]
  | (k2, os) :: rest, k, o =>
    if k2 = k then (k2, os ++ [o]) :: rest
    else (k2, os) :: insertObs rest k o

/-- Key of the category at a position of an axis: list(labels.keys())[i].
Total via a default that is never reached — every use is guarded by a
length check that makes the position in range, exactly where the Python
indexing is defined. -/
def keyAt (a : Axis) (i : Nat) : String := (a.getD i ("", "")).1

/-- Label of the category at a position of an axis. -/
def labelAt (a : Axis) (i : Nat) : String := (a.getD i ("", "")).2

/-- Body of the for-loop at lines 147-189 of eurostat_sdk.py for one
(value key, value) pair: the linear index is decomposed into the time
position idx mod len(time) and the indicator position
(idx div len(time)) mod len(na_item); the two positional keys are then
looked up in their label dicts (with continue when not found), and geo
and unit take the first key of their axes. The guards mirror the Python
failure order: idx mod 0 and div by 0 raise ZeroDivisionError before any
lookup, and list(keys)[0] on an empty geo or unit axis raises IndexError
after both lookups succeeded. -/
def decodeStep (tl nl gl ul : Axis) (acc : Table) (kv : Nat × Int) : Except DecodeError Table :=
  if tl.length = 0 then Except.error DecodeError.zeroDivision
  else if nl.length = 0 then Except.error DecodeError.zeroDivision
  else
    match tl.lookup (keyAt tl (kv.1 % tl.length)) with
    | none => Except.ok acc
    | some tlab =>
      match nl.lookup (keyAt nl ((kv.1 / tl.length) % nl.length)) with
      | none => Except.ok acc
      | some nlab =>
        if gl.length = 0 then Except.error DecodeError.indexError
        else if ul.length = 0 then Except.error DecodeError.indexError
        else Except.ok (insertObs acc nlab ⟨tlab, keyAt gl 0, keyAt ul 0, kv.2⟩)

/-- The for-loop over values.items() in its list (insertion) order,
short-circuiting on the first raised exception. -/
def decodeLoop (tl nl gl ul : Axis) (acc : Table) : List (Nat × Int) → Except DecodeError Table
  | [] => Except.ok acc
  | kv :: rest =>
    match decodeStep tl nl gl ul acc kv with
    | Except.error e => Except.error e
    | Except.ok acc2 => decodeLoop tl nl gl ul acc2 rest

/-- Decoding of the value mapping once the four axes are in hand. -/
def decodeValues (tl nl gl ul : Axis) (vs : List (Nat × Int)) : Except DecodeError Table :=
  decodeLoop tl nl gl ul [] vs

/-- EurostatAPI.process_dataset_to_json, pure core: when the dimension
key is absent the function prints and returns None; otherwise it reads
the time, na_item, geo and unit axes in that order (KeyError when one is
absent) and runs the decoding loop. -/
def process_dataset_to_json (p : DataPayload) : Except DecodeError (Option Table) :=
  match p.dimension with
  | none => Except.ok none
  | some dims =>
    match lookupAxis dims "time" with
    | Except.error e => Except.error e
    | Except.ok time_labels =>
      match lookupAxis dims "na_item" with
      | Except.error e => Except.error e
      | Except.ok na_item_labels =>
        match lookupAxis dims "geo" with
        | Except.error e => Except.error e
        | Except.ok geo_labels =>
          match lookupAxis dims "unit" with
          | Except.error e => Except.error e
          | Except.ok unit_labels =>
            match decodeValues time_labels na_item_labels geo_labels unit_labels p.value with
            | Except.error e => Except.error e
            | Except.ok t => Except.ok (some t)

/-- Modelled from the spec: the per-index observation the decoding
formulas of section 4.2 prescribe — time label at position
i mod size(time), indicator label at position
(i div size(time)) mod size(indicator), and for geo and unit the first
category of the axis (the code stores its key; the spec comparison for
C3 uses labelAt instead). Used as the refinement comparator. -/
def specPair (tl nl gl ul : Axis) (kv : Nat × Int) : String × Obs :=
  (labelAt nl ((kv.1 / tl.length) % nl.length),
   ⟨labelAt tl (kv.1 % tl.length), keyAt gl 0, keyAt ul 0, kv.2⟩)

/-- Grouping of a sequence of (indicator, observation) pairs by
indicator, preserving first-encounter order of indicators and the
relative order of observations. -/
def groupPairs (ps : List (String × Obs)) : Table :=
  ps.foldl (fun t p => insertObs t p.1 p.2) []

/-- Total number of observations of a table, summed over indicators. -/
def countObs (t : Table) : Nat := (t.map (fun kv => kv.2.length)).sum

/-!
Response cache (eurostat_sdk.py lines 34-110). The payload type is a
parameter: the Python code is dynamically typed and only asks the payload
for its truthiness (if cached_data: / if dataset:), which is passed in as
a function. time.time() is modelled in whole seconds as Nat; the Nat
truncated subtraction agrees with the Python float subtraction on the
branch outcome of now - storedAt < ttl for every positive ttl. The cache
file on disk for one key is a CacheFile: absent, or present but
unreadable/malformed (json.load or the timestamp access raises), or a
well-formed entry.
-/

/-- Stored cache entry: the object json.dump writes at lines 53-56. -/
structure CacheEntry (α : Type) where
  data : α
  timestamp : Nat

/-- State of the cache file for one key. -/
inductive CacheFile (α : Type) where
  | absent : CacheFile α
  | corrupt : CacheFile α
  | entry : CacheEntry α → CacheFile α

/-- The exception _load_cache lets escape on a corrupt cache file
(json.JSONDecodeError from json.load, or KeyError from the timestamp
access). -/
inductive CacheError where
  | corruptEntry : CacheError

/-- Outcome of the underlying HTTP GET of _make_request. -/
inductive TransportOutcome (α : Type) where
  | success : α → TransportOutcome α
  | httpError : TransportOutcome α
  | timeoutError : TransportOutcome α
  | otherError : TransportOutcome α

/-- Raw transport exceptions of requests.get / raise_for_status. -/
inductive TransportError where
  | httpError : TransportError
  | timeoutError : TransportError
  | otherError : TransportError

/-- Whether the remote fetch fails (non-2xx status, timeout, or any
other exception). -/
def TransportOutcome.failed {α : Type} : TransportOutcome α → Bool
  | TransportOutcome.success _ => false
  | _ => true

/-- The requests.get call plus raise_for_status plus response.json():
returns the payload or raises a transport exception. -/
def requests_get {α : Type} : TransportOutcome α → Except TransportError α
  | TransportOutcome.success p => Except.ok p
  | TransportOutcome.httpError => Except.error TransportError.httpError
  | TransportOutcome.timeoutError => Except.error TransportError.timeoutError
  | TransportOutcome.otherError => Except.error TransportError.otherError

/-- EurostatAPI._make_request: every transport exception is caught and
converted to None (lines 34-44). -/
def _make_request {α : Type} (o : TransportOutcome α) : Option α :=
  match requests_get o with
  | Except.ok j => some j
  | Except.error _ => none

/-- EurostatAPI._load_cache (lines 58-70): a missing file is a miss
(returns None); an existing file is read with json.load and its
timestamp compared against the timeout — with no exception handler, so
a corrupt file raises; a stale entry is a miss. -/
def _load_cache {α : Type} (file : CacheFile α) (now : Nat) (timeout : Nat) : Except CacheError (Option α) :=
  match file with
  | CacheFile.absent => Except.ok none
  | CacheFile.corrupt => Except.error CacheError.corruptEntry
  | CacheFile.entry e => if now - e.timestamp < timeout then Except.ok (some e.data) else Except.ok none

/-- EurostatAPI._cache_response (lines 46-56): overwrites the cache file
with the payload and the current time. -/
def _cache_response {α : Type} (d : α) (now : Nat) : CacheFile α :=
  CacheFile.entry ⟨d, now⟩

/-- Observable outcome of one get_dataset call: the returned value
(None on failure), the cache file afterwards, and how many times
_make_request ran. -/
structure FetchEffect (α : Type) where
  result : Option α
  file : CacheFile α
  fetchCalls : Nat

/-- The fetch branch of get_dataset (lines 102-110): one _make_request;
a truthy payload is returned and, when caching, persisted with the
current time; a falsy or failed response returns None and leaves the
file alone. -/
def fetch_and_store {α : Type} (cache : Bool) (file : CacheFile α) (now : Nat)
    (o : TransportOutcome α) (truthy : α → Bool) : FetchEffect α :=
  match _make_request o with
  | some d =>
    if truthy d then ⟨some d, if cache then _cache_response d now else file, 1⟩
    else ⟨none, file, 1⟩
  | none => ⟨none, file, 1⟩

/-- EurostatAPI.get_dataset (lines 79-110), cache logic: with cache on,
_load_cache runs with its default timeout of 3600 seconds (get_dataset
passes no ttl); a truthy cached payload is returned with no fetch;
otherwise the fetch branch runs. A corrupt cache file makes _load_cache
raise before any fetch. -/
def get_dataset {α : Type} (cache : Bool) (file : CacheFile α) (now : Nat)
    (o : TransportOutcome α) (truthy : α → Bool) : Except CacheError (FetchEffect α) :=
  if cache then
    match _load_cache file now 3600 with
    | Except.error e => Except.error e
    | Except.ok (some d) =>
      if truthy d then Except.ok ⟨some d, file, 0⟩
      else Except.ok (fetch_and_store cache file now o truthy)
    | Except.ok none => Except.ok (fetch_and_store cache file now o truthy)
  else Except.ok (fetch_and_store cache file now o truthy)

/-!
Table filters of the generate_data endpoint (api.py lines 139-144):
the indicator filter is a dict comprehension keeping the keys listed in
the request, the time filter a list comprehension keeping the rows whose
time label is listed.
-/

/-- Indicator filter: keep the table entries whose indicator is in the
requested list (api.py line 140). -/
def filterIndicators (inds : List String) (t : Table) : Table :=
  t.filter (fun kv => inds.contains kv.1)

/-- Time filter: for every indicator keep the rows whose time label is
in the requested list (api.py lines 142-144). -/
def filterTimeRange (tr : List String) (t : Table) : Table :=
  t.map (fun kv => (kv.1, kv.2.filter (fun d => tr.contains d.time)))

deriving instance DecidableEq for CacheEntry
deriving instance DecidableEq for CacheFile
deriving instance DecidableEq for CacheError
deriving instance DecidableEq for TransportOutcome
deriving instance DecidableEq for TransportError
deriving instance DecidableEq for FetchEffect
deriving instance DecidableEq for Except

/-!
Helper lemmas. These are shared infrastructure; the per-claim theorems
come afterwards and use them.
-/

/-- Looking up the key sitting at an in-range position of an axis always
finds some label (the axis is its own key source, so the membership test
of the Python code never fails and continue is dead code). -/
theorem lookup_keyAt_exists :
    ∀ (l : List (String × String)) (i : Nat), i < l.length →
      ∃ b, l.lookup (keyAt l i) = some b := by
  intro l
  induction l with
  | nil => intro i hi; simp at hi
  | cons a t ih =>
    intro i hi
    cases a with
    | mk k v =>
      cases i with
      | zero => exact ⟨v, by simp [keyAt, List.lookup]⟩
      | succ n =>
        have hlt : n < t.length := by simpa using hi
        obtain ⟨b, hb⟩ := ih n hlt
        have hkey : keyAt ((k, v) :: t) (n + 1) = keyAt t n := by
          simp [keyAt, List.getD_cons_succ]
        rw [hkey, List.lookup_cons]
        cases hk : (keyAt t n == k)
        · exact ⟨b, hb⟩
        · exact ⟨v, rfl⟩

/-- With pairwise distinct keys (always true of a Python dict), looking
up the key at an in-range position gives exactly the label at that
position. -/
theorem lookup_keyAt_of_nodup :
    ∀ (l : List (String × String)), (l.map Prod.fst).Nodup → ∀ i : Nat, i < l.length →
      l.lookup (keyAt l i) = some (labelAt l i) := by
  intro l
  induction l with
  | nil => intro _ i hi; simp at hi
  | cons a t ih =>
    intro hn i hi
    cases a with
    | mk k v =>
      have hn2 : (t.map Prod.fst).Nodup := (List.nodup_cons.mp (by simpa using hn)).2
      have hk : k ∉ t.map Prod.fst := (List.nodup_cons.mp (by simpa using hn)).1
      cases i with
      | zero => simp [keyAt, labelAt, List.lookup]
      | succ n =>
        have hlt : n < t.length := by simpa using hi
        have hmem : keyAt t n ∈ t.map Prod.fst := by
          have hg : t.getD n ("", "") ∈ t := by
            rw [List.getD_eq_getElem t _ hlt]
            exact List.getElem_mem hlt
          exact List.mem_map_of_mem Prod.fst hg
        have hne : (keyAt t n == k) = false := by
          refine beq_eq_false_iff_ne.mpr ?_
          intro hcontra
          exact hk (hcontra ▸ hmem)
        have hkey : keyAt ((k, v) :: t) (n + 1) = keyAt t n := by
          simp [keyAt, List.getD_cons_succ]
        have hlab : labelAt ((k, v) :: t) (n + 1) = labelAt t n := by
          simp [labelAt, List.getD_cons_succ]
        rw [hkey, hlab, List.lookup_cons, hne]
        exact ih hn2 n hlt

/-- Under the dict invariant (distinct keys) and nonempty axes, one loop
iteration appends exactly the observation the mixed-radix formulas
prescribe, grouped under its indicator label. -/
theorem decodeStep_eq_spec (tl nl gl ul : Axis)
    (hnt : (tl.map Prod.fst).Nodup) (hnn : (nl.map Prod.fst).Nodup)
    (ht : tl ≠ []) (hn : nl ≠ []) (hg : gl ≠ []) (hu : ul ≠ [])
    (acc : Table) (kv : Nat × Int) :
    decodeStep tl nl gl ul acc kv =
      Except.ok (insertObs acc (specPair tl nl gl ul kv).1 (specPair tl nl gl ul kv).2) := by
  have htl : ¬ tl.length = 0 := fun h => ht (List.length_eq_zero.mp h)
  have hnl : ¬ nl.length = 0 := fun h => hn (List.length_eq_zero.mp h)
  have hgl : ¬ gl.length = 0 := fun h => hg (List.length_eq_zero.mp h)
  have hul : ¬ ul.length = 0 := fun h => hu (List.length_eq_zero.mp h)
  have h1 : tl.lookup (keyAt tl (kv.1 % tl.length)) = some (labelAt tl (kv.1 % tl.length)) :=
    lookup_keyAt_of_nodup tl hnt _ (Nat.mod_lt kv.1 (Nat.pos_of_ne_zero htl))
  have h2 : nl.lookup (keyAt nl ((kv.1 / tl.length) % nl.length)) =
      some (labelAt nl ((kv.1 / tl.length) % nl.length)) :=
    lookup_keyAt_of_nodup nl hnn _ (Nat.mod_lt (kv.1 / tl.length) (Nat.pos_of_ne_zero hnl))
  rw [decodeStep, if_neg htl, if_neg hnl, h1, h2]
  simp [specPair, hgl, hul]

/-- The whole loop, from any accumulator, is the fold of the
spec-prescribed per-index insertions. -/
theorem decodeLoop_eq_spec (tl nl gl ul : Axis)
    (hnt : (tl.map Prod.fst).Nodup) (hnn : (nl.map Prod.fst).Nodup)
    (ht : tl ≠ []) (hn : nl ≠ []) (hg : gl ≠ []) (hu : ul ≠ []) :
    ∀ (vs : List (Nat × Int)) (acc : Table),
      decodeLoop tl nl gl ul acc vs =
        Except.ok (vs.foldl
          (fun t p => insertObs t (specPair tl nl gl ul p).1 (specPair tl nl gl ul p).2) acc) := by
  intro vs
  induction vs with
  | nil => intro acc; rfl
  | cons kv rest ih =>
    intro acc
    rw [decodeLoop, decodeStep_eq_spec tl nl gl ul hnt hnn ht hn hg hu acc kv]
    rw [List.foldl_cons]
    exact ih _

/-- Refinement of the decoder against the decoding formulas of the
spec: the produced table is the grouping, by indicator, of the
spec-prescribed observation of every present value key, in the
presentation order of the value mapping. -/
theorem decodeValues_eq_group (tl nl gl ul : Axis)
    (hnt : (tl.map Prod.fst).Nodup) (hnn : (nl.map Prod.fst).Nodup)
    (ht : tl ≠ []) (hn : nl ≠ []) (hg : gl ≠ []) (hu : ul ≠ [])
    (vs : List (Nat × Int)) :
    decodeValues tl nl gl ul vs = Except.ok (groupPairs (vs.map (specPair tl nl gl ul))) := by
  rw [decodeValues, decodeLoop_eq_spec tl nl gl ul hnt hnn ht hn hg hu vs, groupPairs,
    List.foldl_map]

/-- With all four axes nonempty the loop body always succeeds and
appends exactly one observation, whose geo and unit fields are the first
category keys of their axes (no distinct-keys assumption needed). -/
theorem decodeStep_shape (tl nl gl ul : Axis)
    (ht : tl ≠ []) (hn : nl ≠ []) (hg : gl ≠ []) (hu : ul ≠ [])
    (acc : Table) (kv : Nat × Int) :
    ∃ k tlab, decodeStep tl nl gl ul acc kv =
      Except.ok (insertObs acc k ⟨tlab, keyAt gl 0, keyAt ul 0, kv.2⟩) := by
  have htl : ¬ tl.length = 0 := fun h => ht (List.length_eq_zero.mp h)
  have hnl : ¬ nl.length = 0 := fun h => hn (List.length_eq_zero.mp h)
  have hgl : ¬ gl.length = 0 := fun h => hg (List.length_eq_zero.mp h)
  have hul : ¬ ul.length = 0 := fun h => hu (List.length_eq_zero.mp h)
  obtain ⟨tlab, h1⟩ := lookup_keyAt_exists tl _ (Nat.mod_lt kv.1 (Nat.pos_of_ne_zero htl))
  obtain ⟨nlab, h2⟩ := lookup_keyAt_exists nl _ (Nat.mod_lt (kv.1 / tl.length) (Nat.pos_of_ne_zero hnl))
  refine ⟨nlab, tlab, ?_⟩
  rw [decodeStep, if_neg htl, if_neg hnl, h1, h2]
  simp [hgl, hul]

theorem countObs_nil : countObs [] = 0 := rfl

theorem countObs_cons (k : String) (os : List Obs) (t : Table) :
    countObs ((k, os) :: t) = os.length + countObs t := by
  simp [countObs]

/-- Appending one observation grows the total count by exactly one. -/
theorem countObs_insertObs (t : Table) (k : String) (o : Obs) :
    countObs (insertObs t k o) = countObs t + 1 := by
  induction t with
  | nil => simp [insertObs, countObs]
  | cons a t ih =>
    cases a with
    | mk k2 os =>
      by_cases h : k2 = k
      · simp [insertObs, h, countObs_cons]
        omega
      · rw [insertObs, if_neg h, countObs_cons, countObs_cons, ih]
        omega

/-- With all four axes nonempty, the loop succeeds and produces exactly
one observation per value key, counted from any accumulator. -/
theorem decodeLoop_count (tl nl gl ul : Axis)
    (ht : tl ≠ []) (hn : nl ≠ []) (hg : gl ≠ []) (hu : ul ≠ []) :
    ∀ (vs : List (Nat × Int)) (acc : Table),
      ∃ t, decodeLoop tl nl gl ul acc vs = Except.ok t ∧
        countObs t = countObs acc + vs.length := by
  intro vs
  induction vs with
  | nil => intro acc; exact ⟨acc, rfl, by simp⟩
  | cons kv rest ih =>
    intro acc
    obtain ⟨k, tlab, hstep⟩ := decodeStep_shape tl nl gl ul ht hn hg hu acc kv
    obtain ⟨t, hloop, hcount⟩ := ih (insertObs acc k ⟨tlab, keyAt gl 0, keyAt ul 0, kv.2⟩)
    refine ⟨t, ?_, ?_⟩
    · rw [decodeLoop, hstep]
      exact hloop
    · rw [hcount, countObs_insertObs]
      simp
      omega

/-- Every observation of the table has the first geo key and the first
unit key in its geo and unit fields. -/
def AllGeoUnit (gl ul : Axis) (t : Table) : Prop :=
  ∀ p ∈ t, ∀ o ∈ p.2, o.geo = keyAt gl 0 ∧ o.unit = keyAt ul 0

instance (gl ul : Axis) (t : Table) : Decidable (AllGeoUnit gl ul t) := by
  unfold AllGeoUnit
  infer_instance

theorem allGeoUnit_insertObs (gl ul : Axis) (t : Table) (k : String) (o : Obs)
    (h : AllGeoUnit gl ul t) (ho : o.geo = keyAt gl 0 ∧ o.unit = keyAt ul 0) :
    AllGeoUnit gl ul (insertObs t k o) := by
  induction t with
  | nil =>
    intro p hp o2 ho2
    simp [insertObs] at hp
    subst hp
    simp at ho2
    subst ho2
    exact ho
  | cons a t ih =>
    cases a with
    | mk k2 os =>
      by_cases hk : k2 = k
      · intro p hp o2 ho2
        rw [insertObs, if_pos hk] at hp
        rcases List.mem_cons.mp hp with hp | hp
        · subst hp
          simp only [List.mem_append, List.mem_singleton] at ho2
          rcases ho2 with ho2 | ho2
          · exact h (k2, os) (List.mem_cons_self _ _) o2 ho2
          · subst ho2; exact ho
        · exact h p (List.mem_cons_of_mem _ hp) o2 ho2
      · intro p hp o2 ho2
        rw [insertObs, if_neg hk] at hp
        rcases List.mem_cons.mp hp with hp | hp
        · subst hp
          exact h (k2, os) (List.mem_cons_self _ _) o2 ho2
        · have ht : AllGeoUnit gl ul t := fun q hq o3 ho3 =>
            h q (List.mem_cons_of_mem _ hq) o3 ho3
          exact ih ht p hp o2 ho2

/-- One loop iteration preserves the geo/unit field invariant. -/
theorem decodeStep_preserves_geoUnit (tl nl gl ul : Axis) (acc acc2 : Table) (kv : Nat × Int)
    (h : decodeStep tl nl gl ul acc kv = Except.ok acc2)
    (hacc : AllGeoUnit gl ul acc) : AllGeoUnit gl ul acc2 := by
  rw [decodeStep] at h
  by_cases htl : tl.length = 0
  · rw [if_pos htl] at h; exact absurd h (by simp)
  · rw [if_neg htl] at h
    by_cases hnl : nl.length = 0
    · rw [if_pos hnl] at h; exact absurd h (by simp)
    · rw [if_neg hnl] at h
      cases h1 : tl.lookup (keyAt tl (kv.1 % tl.length)) with
      | none => rw [h1] at h; simp at h; subst h; exact hacc
      | some tlab =>
        rw [h1] at h
        cases h2 : nl.lookup (keyAt nl ((kv.1 / tl.length) % nl.length)) with
        | none => rw [h2] at h; simp at h; subst h; exact hacc
        | some nlab =>
          rw [h2] at h
          simp only at h
          by_cases hgl : gl.length = 0
          · rw [if_pos hgl] at h; exact absurd h (by simp)
          · rw [if_neg hgl] at h
            by_cases hul : ul.length = 0
            · rw [if_pos hul] at h; exact absurd h (by simp)
            · rw [if_neg hul] at h
              simp only [Except.ok.injEq] at h
              subst h
              exact allGeoUnit_insertObs gl ul acc nlab _ hacc ⟨rfl, rfl⟩

/-- The loop preserves the geo/unit field invariant. -/
theorem decodeLoop_geoUnit (tl nl gl ul : Axis) :
    ∀ (vs : List (Nat × Int)) (acc t : Table), AllGeoUnit gl ul acc →
      decodeLoop tl nl gl ul acc vs = Except.ok t → AllGeoUnit gl ul t := by
  intro vs
  induction vs with
  | nil =>
    intro acc t hacc h
    rw [decodeLoop] at h
    simp only [Except.ok.injEq] at h
    subst h
    exact hacc
  | cons kv rest ih =>
    intro acc t hacc h
    rw [decodeLoop] at h
    cases hstep : decodeStep tl nl gl ul acc kv with
    | error e => rw [hstep] at h; exact absurd h (by simp)
    | ok acc2 =>
      rw [hstep] at h
      exact ih acc2 t (decodeStep_preserves_geoUnit tl nl gl ul acc acc2 kv hstep hacc) h

/-- An empty time or na_item axis makes the loop body raise
ZeroDivisionError (idx mod 0 or the later mod by len(na_item)). -/
theorem decodeStep_zeroDivision (tl nl gl ul : Axis) (acc : Table) (kv : Nat × Int)
    (h : tl = [] ∨ nl = []) :
    decodeStep tl nl gl ul acc kv = Except.error DecodeError.zeroDivision := by
  by_cases htl : tl.length = 0
  · rw [decodeStep, if_pos htl]
  · rw [decodeStep, if_neg htl]
    have hnl : nl = [] := by
      rcases h with h | h
      · exact absurd (by simp [h] : tl.length = 0) htl
      · exact h
    subst hnl
    simp

/-- With nonempty time and na_item axes, an empty geo or unit axis makes
the loop body raise IndexError at list(keys)[0]. -/
theorem decodeStep_indexError (tl nl gl ul : Axis) (acc : Table) (kv : Nat × Int)
    (ht : tl ≠ []) (hn : nl ≠ []) (h : gl = [] ∨ ul = []) :
    decodeStep tl nl gl ul acc kv = Except.error DecodeError.indexError := by
  have htl : ¬ tl.length = 0 := fun h2 => ht (List.length_eq_zero.mp h2)
  have hnl : ¬ nl.length = 0 := fun h2 => hn (List.length_eq_zero.mp h2)
  obtain ⟨tlab, h1⟩ := lookup_keyAt_exists tl _ (Nat.mod_lt kv.1 (Nat.pos_of_ne_zero htl))
  obtain ⟨nlab, h2⟩ := lookup_keyAt_exists nl _ (Nat.mod_lt (kv.1 / tl.length) (Nat.pos_of_ne_zero hnl))
  rw [decodeStep, if_neg htl, if_neg hnl, h1, h2]
  by_cases hgl : gl.length = 0
  · simp [hgl]
  · have hul : ul = [] := by
      rcases h with h | h
      · exact absurd (by simp [h] : gl.length = 0) hgl
      · exact h
    subst hul
    simp [hgl]

/-- When the first loop iteration raises, the loop raises the same
exception. -/
theorem decodeLoop_error_head (tl nl gl ul : Axis) (kv : Nat × Int) (vs : List (Nat × Int))
    (e : DecodeError) (h : decodeStep tl nl gl ul [] kv = Except.error e) :
    decodeValues tl nl gl ul (kv :: vs) = Except.error e := by
  rw [decodeValues, decodeLoop, h]

/-- Reduction of process_dataset_to_json once all four axis lookups
succeed. -/
theorem process_eq_decodeValues (dims : List (String × Axis)) (vs : List (Nat × Int))
    (tl nl gl ul : Axis)
    (hdt : dims.lookup "time" = some tl) (hdn : dims.lookup "na_item" = some nl)
    (hdg : dims.lookup "geo" = some gl) (hdu : dims.lookup "unit" = some ul) :
    process_dataset_to_json ⟨some dims, vs⟩ =
      match decodeValues tl nl gl ul vs with
      | Except.error e => Except.error e
      | Except.ok t => Except.ok (some t) := by
  rw [process_dataset_to_json]
  simp only [lookupAxis, hdt, hdn, hdg, hdu]

/-- A failed remote call is converted to None by _make_request. -/
theorem make_request_failed {α : Type} (o : TransportOutcome α)
    (ho : o.failed = true) : _make_request o = none := by
  cases o with
  | success p => simp [TransportOutcome.failed] at ho
  | httpError => rfl
  | timeoutError => rfl
  | otherError => rfl

/-- The fetch branch runs _make_request exactly once. -/
theorem fetch_and_store_calls {α : Type} (cache : Bool) (file : CacheFile α) (now : Nat)
    (o : TransportOutcome α) (truthy : α → Bool) :
    (fetch_and_store cache file now o truthy).fetchCalls = 1 := by
  rw [fetch_and_store]
  cases _make_request o with
  | none => rfl
  | some d =>
    by_cases h : truthy d = true
    · simp [h]
    · simp [h]

/-- On a failed fetch, the fetch branch returns None and leaves the
cache file untouched. -/
theorem fetch_and_store_failed {α : Type} (cache : Bool) (file : CacheFile α) (now : Nat)
    (o : TransportOutcome α) (truthy : α → Bool) (ho : o.failed = true) :
    fetch_and_store cache file now o truthy = ⟨none, file, 1⟩ := by
  rw [fetch_and_store, make_request_failed o ho]

/-- The indicator filter and the time filter commute: the time filter
only rewrites the observation lists entrywise and never touches the
keys the indicator filter selects on. -/
theorem filterIndicators_filterTimeRange_comm (t : Table) (inds tr : List String) :
    filterIndicators inds (filterTimeRange tr t) =
      filterTimeRange tr (filterIndicators inds t) := by
  show ((t.map (fun kv => (kv.1, kv.2.filter (fun d => tr.contains d.time)))).filter
      (fun kv => inds.contains kv.1)) =
    ((t.filter (fun kv => inds.contains kv.1)).map
      (fun kv => (kv.1, kv.2.filter (fun d => tr.contains d.time))))
  rw [List.filter_map]
  rfl

/-!
Claim theorems.
-/

/-- C1: for every value key with integer index i the decoder assigns the
observation the time category at position i mod size(time) and the
na_item category at position (i div size(time)) mod size(indicator) of
the axes in declared order, grouped under the indicator label; and the
concrete scenario with time 2020/2021, indicators GDP/CPI, one geo and
one unit and values 100,200,5,7 decodes to GDP mapped to (2020,100),
(2021,200) and CPI mapped to (2020,5),(2021,7). -/
theorem c1_mixed_radix_decoding :
    (∀ (tl nl gl ul : Axis) (vs : List (Nat × Int)),
        (tl.map Prod.fst).Nodup → (nl.map Prod.fst).Nodup →
        tl ≠ [] → nl ≠ [] → gl ≠ [] → ul ≠ [] →
        decodeValues tl nl gl ul vs =
          Except.ok (groupPairs (vs.map (specPair tl nl gl ul))))
    ∧ process_dataset_to_json
        ⟨some [("time", [("0", "2020"), ("1", "2021")]),
               ("na_item", [("0", "GDP"), ("1", "CPI")]),
               ("geo", [("0", "IT")]), ("unit", [("0", "EUR")])],
         [(0, 100), (1, 200), (2, 5), (3, 7)]⟩ =
      Except.ok (some [("GDP", [⟨"2020", "0", "0", 100⟩, ⟨"2021", "0", "0", 200⟩]),
                       ("CPI", [⟨"2020", "0", "0", 5⟩, ⟨"2021", "0", "0", 7⟩])]) :=
  ⟨fun tl nl gl ul vs hnt hnn ht hn hg hu =>
     decodeValues_eq_group tl nl gl ul hnt hnn ht hn hg hu vs,
   by decide⟩

/-- C1 witness: the refinement applied to the concrete scenario. -/
theorem c1_witness :
    decodeValues [("0", "2020"), ("1", "2021")] [("0", "GDP"), ("1", "CPI")]
        [("0", "IT")] [("0", "EUR")] [(0, 100), (1, 200), (2, 5), (3, 7)] =
      Except.ok (groupPairs ([((0:Nat), (100:Int)), (1, 200), (2, 5), (3, 7)].map
        (specPair [("0", "2020"), ("1", "2021")] [("0", "GDP"), ("1", "CPI")]
          [("0", "IT")] [("0", "EUR")]))) :=
  c1_mixed_radix_decoding.1 _ _ _ _ _ (by decide) (by decide) (by decide) (by decide)
    (by decide) (by decide)

/-- C2: with a single geo and a single unit category and nonempty time
and na_item axes, decode emits exactly one observation per key present
in the value mapping; absent keys contribute nothing. -/
theorem c2_one_observation_per_key (tl nl gl ul : Axis) (vs : List (Nat × Int))
    (ht : tl ≠ []) (hn : nl ≠ []) (hg : gl.length = 1) (hu : ul.length = 1) :
    ∃ t, decodeValues tl nl gl ul vs = Except.ok t ∧ countObs t = vs.length := by
  have hg2 : gl ≠ [] := by intro h2; rw [h2] at hg; simp at hg
  have hu2 : ul ≠ [] := by intro h2; rw [h2] at hu; simp at hu
  obtain ⟨t, h1, h2⟩ := decodeLoop_count tl nl gl ul ht hn hg2 hu2 vs []
  exact ⟨t, h1, by simpa [countObs_nil] using h2⟩

/-- C2 witness: the value mapping with a gap at index 3 (keys 0,1,2,4)
yields exactly 4 observations. -/
theorem c2_witness :
    ∃ t, decodeValues [("0", "2020"), ("1", "2021")] [("0", "GDP"), ("1", "CPI")]
        [("0", "IT")] [("0", "EUR")] [(0, 100), (1, 200), (2, 5), (4, 9)] = Except.ok t ∧
      countObs t = 4 :=
  c2_one_observation_per_key _ _ _ _ _ (by decide) (by decide) rfl rfl

/-- C3 counterexample: with geo axis IT mapped to label Italy and unit
axis EUR mapped to label Euro, the decoder stores the first KEYS IT and
EUR in the geo and unit fields of the emitted observation, not the
human-readable first labels Italy and Euro the claim prescribes. -/
theorem c3_counterexample :
    decodeValues [("0", "2020")] [("0", "GDP")] [("IT", "Italy")] [("EUR", "Euro")] [(0, 42)] =
      Except.ok [("GDP", [⟨"2020", "IT", "EUR", 42⟩])]
    ∧ labelAt [("IT", "Italy")] 0 = "Italy" ∧ labelAt [("EUR", "Euro")] 0 = "Euro"
    ∧ ("IT" : String) ≠ "Italy" ∧ ("EUR" : String) ≠ "Euro" :=
  ⟨by decide, rfl, rfl, by decide, by decide⟩

/-- C3 amended: in every observation emitted by decode, the geo and unit
fields hold the category KEY (not the label) of the first category of
the geo and unit axes in declared order, the same for every observation
regardless of the linear index. -/
theorem c3_amended_first_key (tl nl gl ul : Axis) (vs : List (Nat × Int)) (t : Table)
    (h : decodeValues tl nl gl ul vs = Except.ok t) :
    AllGeoUnit gl ul t :=
  decodeLoop_geoUnit tl nl gl ul vs [] t (fun p hp => absurd hp (List.not_mem_nil p)) h

/-- C3 amended witness: the amended claim applied to the concrete
counterexample dataset. -/
theorem c3_witness :
    AllGeoUnit [("IT", "Italy")] [("EUR", "Euro")] [("GDP", [⟨"2020", "IT", "EUR", 42⟩])] :=
  c3_amended_first_key [("0", "2020")] [("0", "GDP")] [("IT", "Italy")] [("EUR", "Euro")]
    [(0, 42)] _ (by decide)

/-- C8: the indicator filter and the time filter are order-preserving
and commute; retained indicators keep their retained observations in
their original relative order. -/
theorem c8_filters_commute (t : Table) (inds tr : List String) :
    (filterIndicators inds (filterTimeRange tr t) =
      filterTimeRange tr (filterIndicators inds t))
    ∧ (filterIndicators inds t).Sublist t
    ∧ ∀ k os, (k, os) ∈ t →
        (k, os.filter (fun d => tr.contains d.time)) ∈ filterTimeRange tr t ∧
        (os.filter (fun d => tr.contains d.time)).Sublist os :=
  ⟨filterIndicators_filterTimeRange_comm t inds tr,
   List.filter_sublist t,
   fun _ os h =>
     ⟨List.mem_map_of_mem (fun kv => (kv.1, kv.2.filter (fun d => tr.contains d.time))) h,
      List.filter_sublist os⟩⟩

/-- C8 witness: the order-preservation part applied to a concrete table. -/
theorem c8_witness :
    (("GDP", [(⟨"2020", "0", "0", 100⟩ : Obs), ⟨"2021", "0", "0", 200⟩].filter
        (fun d => ["2020"].contains d.time)) ∈
      filterTimeRange ["2020"]
        [("GDP", [⟨"2020", "0", "0", 100⟩, ⟨"2021", "0", "0", 200⟩]),
         ("CPI", [⟨"2020", "0", "0", 5⟩])])
    ∧ ([(⟨"2020", "0", "0", 100⟩ : Obs), ⟨"2021", "0", "0", 200⟩].filter
        (fun d => ["2020"].contains d.time)).Sublist
        [⟨"2020", "0", "0", 100⟩, ⟨"2021", "0", "0", 200⟩] :=
  (c8_filters_commute
      [("GDP", [⟨"2020", "0", "0", 100⟩, ⟨"2021", "0", "0", 200⟩]),
       ("CPI", [⟨"2020", "0", "0", 5⟩])] ["GDP"] ["2020"]).2.2
    "GDP" [⟨"2020", "0", "0", 100⟩, ⟨"2021", "0", "0", 200⟩] (by decide)

/-- C4: a stored entry younger than the ttl (fixed at 3600 seconds, the
_load_cache default get_dataset relies on) holding a truthy previously
fetched payload is returned with no fetch; a stored entry at least ttl
old triggers exactly one fetch whose truthy successful result is
persisted with the current timestamp and returned. -/
theorem c4_cache_hit_and_refresh {α : Type} (truthy : α → Bool) (e : CacheEntry α)
    (now : Nat) (o : TransportOutcome α) :
    (now - e.timestamp < 3600 → truthy e.data = true →
      get_dataset true (CacheFile.entry e) now o truthy =
        Except.ok ⟨some e.data, CacheFile.entry e, 0⟩)
    ∧ (3600 ≤ now - e.timestamp → ∀ p : α, o = TransportOutcome.success p → truthy p = true →
      get_dataset true (CacheFile.entry e) now o truthy =
        Except.ok ⟨some p, CacheFile.entry ⟨p, now⟩, 1⟩) := by
  constructor
  · intro hfresh htr
    simp [get_dataset, _load_cache, hfresh, htr]
  · intro hstale p hp htr
    subst hp
    have hns : ¬ (now - e.timestamp < 3600) := by omega
    simp [get_dataset, _load_cache, hns, fetch_and_store, _make_request, requests_get, htr,
      _cache_response]

/-- C4 witness: a fresh hit at age 100 and a refetch at age 3900 on a
concrete Nat payload. -/
theorem c4_witness :
    get_dataset true (CacheFile.entry ⟨(5 : Nat), 100⟩) 200 (TransportOutcome.success 7)
        (fun n => decide (0 < n)) = Except.ok ⟨some 5, CacheFile.entry ⟨5, 100⟩, 0⟩
    ∧ get_dataset true (CacheFile.entry ⟨(5 : Nat), 100⟩) 4000 (TransportOutcome.success 7)
        (fun n => decide (0 < n)) = Except.ok ⟨some 7, CacheFile.entry ⟨7, 4000⟩, 1⟩ :=
  ⟨(c4_cache_hit_and_refresh (fun n => decide (0 < n)) ⟨5, 100⟩ 200
      (TransportOutcome.success 7)).1 (by decide) (by decide),
   (c4_cache_hit_and_refresh (fun n => decide (0 < n)) ⟨5, 100⟩ 4000
      (TransportOutcome.success 7)).2 (by decide) 7 rfl (by decide)⟩

/-- C5 counterexample: on a corrupt cache file get_dataset propagates
the read exception instead of treating it as a cache miss — no fetch is
attempted and the caller gets an error, refuting the claim that a
malformed entry degrades to always-fetch and never raises. -/
theorem c5_counterexample :
    get_dataset true (CacheFile.corrupt : CacheFile Nat) 0 (TransportOutcome.success 1)
        (fun _ => true) = Except.error CacheError.corruptEntry
    ∧ (get_dataset true (CacheFile.corrupt : CacheFile Nat) 0 (TransportOutcome.success 1)
        (fun _ => true)).isOk = false :=
  ⟨rfl, rfl⟩

/-- C5 amended: only a MISSING cache file is treated as a cache miss
(the fetch branch then runs exactly once); an existing but corrupt or
malformed cache file makes the unguarded json.load / timestamp access of
_load_cache raise, the exception propagates to the caller and no fetch
is attempted. -/
theorem c5_amended_corrupt_propagates {α : Type} (now : Nat) (o : TransportOutcome α)
    (truthy : α → Bool) :
    get_dataset true (CacheFile.corrupt : CacheFile α) now o truthy =
      Except.error CacheError.corruptEntry
    ∧ ∃ eff, get_dataset true (CacheFile.absent : CacheFile α) now o truthy = Except.ok eff ∧
        eff.fetchCalls = 1 :=
  ⟨rfl, ⟨fetch_and_store true CacheFile.absent now o truthy, rfl,
    fetch_and_store_calls true CacheFile.absent now o truthy⟩⟩

/-- C6: a payload whose dimension object lacks one of the required axes
time, na_item, geo, unit makes decode fail with the KeyError naming the
first missing axis in the extraction order — modelled as the structured
missingDimension error — and no partial table is returned. -/
theorem c6_missing_dimension (dims : List (String × Axis)) (vs : List (Nat × Int))
    (h : dims.lookup "time" = none ∨ dims.lookup "na_item" = none ∨
         dims.lookup "geo" = none ∨ dims.lookup "unit" = none) :
    ∃ a, a ∈ ["time", "na_item", "geo", "unit"] ∧ dims.lookup a = none ∧
      process_dataset_to_json ⟨some dims, vs⟩ =
        Except.error (DecodeError.missingDimension a) := by
  by_cases h1 : dims.lookup "time" = none
  · refine ⟨"time", by simp, h1, ?_⟩
    rw [process_dataset_to_json]
    simp only [lookupAxis, h1]
  · obtain ⟨tl, htl⟩ := Option.ne_none_iff_exists'.mp h1
    by_cases h2 : dims.lookup "na_item" = none
    · refine ⟨"na_item", by simp, h2, ?_⟩
      rw [process_dataset_to_json]
      simp only [lookupAxis, htl, h2]
    · obtain ⟨nl, hnl⟩ := Option.ne_none_iff_exists'.mp h2
      by_cases h3 : dims.lookup "geo" = none
      · refine ⟨"geo", by simp, h3, ?_⟩
        rw [process_dataset_to_json]
        simp only [lookupAxis, htl, hnl, h3]
      · obtain ⟨gl, hgl⟩ := Option.ne_none_iff_exists'.mp h3
        by_cases h4 : dims.lookup "unit" = none
        · refine ⟨"unit", by simp, h4, ?_⟩
          rw [process_dataset_to_json]
          simp only [lookupAxis, htl, hnl, hgl, h4]
        · rcases h with h | h | h | h
          · exact absurd h h1
          · exact absurd h h2
          · exact absurd h h3
          · exact absurd h h4

/-- C6 witness: a payload with a dimension object holding only the time
axis fails with the missing na_item axis. -/
theorem c6_witness :
    ∃ a, a ∈ ["time", "na_item", "geo", "unit"] ∧
      ([("time", [("0", "2020")])] : List (String × Axis)).lookup a = none ∧
      process_dataset_to_json ⟨some [("time", [("0", "2020")])], [(0, 5)]⟩ =
        Except.error (DecodeError.missingDimension a) :=
  c6_missing_dimension [("time", [("0", "2020")])] [(0, 5)] (by decide)

/-- C7: when the remote fetch fails (non-2xx, timeout or any other
exception) and the cache file is readable, get_dataset returns the plain
no-dataset outcome (result None inside a normal return, not a transport
exception) and the cache file — in particular any existing stale
entry — is left untouched. -/
theorem c7_failed_fetch_preserves_entry {α : Type} (truthy : α → Bool) (file : CacheFile α)
    (now : Nat) (o : TransportOutcome α)
    (hf : file ≠ CacheFile.corrupt) (ho : o.failed = true) :
    ∃ eff, get_dataset true file now o truthy = Except.ok eff ∧ eff.file = file ∧
      (1 ≤ eff.fetchCalls → eff.result = none) := by
  cases file with
  | corrupt => exact absurd rfl hf
  | absent =>
    refine ⟨⟨none, CacheFile.absent, 1⟩, ?_, rfl, fun _ => rfl⟩
    have hstep : get_dataset true (CacheFile.absent : CacheFile α) now o truthy =
        Except.ok (fetch_and_store true CacheFile.absent now o truthy) := rfl
    rw [hstep, fetch_and_store_failed true CacheFile.absent now o truthy ho]
  | entry e =>
    by_cases hfresh : now - e.timestamp < 3600
    · by_cases htr : truthy e.data = true
      · refine ⟨⟨some e.data, CacheFile.entry e, 0⟩, ?_, rfl, fun h2 => absurd h2 (Nat.not_succ_le_zero 0)⟩
        simp [get_dataset, _load_cache, hfresh, htr]
      · refine ⟨⟨none, CacheFile.entry e, 1⟩, ?_, rfl, fun _ => rfl⟩
        have htr2 : truthy e.data = false := by
          cases hb : truthy e.data
          · rfl
          · exact absurd hb htr
        simp [get_dataset, _load_cache, hfresh, htr2,
          fetch_and_store_failed true (CacheFile.entry e) now o truthy ho]
    · refine ⟨⟨none, CacheFile.entry e, 1⟩, ?_, rfl, fun _ => rfl⟩
      simp [get_dataset, _load_cache, hfresh,
        fetch_and_store_failed true (CacheFile.entry e) now o truthy ho]

/-- C7 witness: a timeout with a stale stored entry on a concrete Nat
payload leaves the entry in place and reports no dataset. -/
theorem c7_witness :
    ∃ eff, get_dataset true (CacheFile.entry ⟨(5 : Nat), 0⟩) 5000 TransportOutcome.timeoutError
        (fun n => decide (0 < n)) = Except.ok eff ∧
      eff.file = CacheFile.entry ⟨(5 : Nat), 0⟩ ∧
      (1 ≤ eff.fetchCalls → eff.result = none) :=
  c7_failed_fetch_preserves_entry (fun n => decide (0 < n)) (CacheFile.entry ⟨5, 0⟩) 5000
    TransportOutcome.timeoutError (by decide) rfl

/-- C9 counterexample: a value mapping presenting its keys out of
ascending order is decoded in presentation order, so the GDP list holds
the 2021 observation before the 2020 one, not in ascending-index order
as the claim states. -/
theorem c9_counterexample :
    decodeValues [("0", "2020"), ("1", "2021")] [("0", "GDP")] [("0", "IT")] [("0", "EUR")]
        [(1, 200), (0, 100)] =
      Except.ok [("GDP", [⟨"2021", "0", "0", 200⟩, ⟨"2020", "0", "0", 100⟩])]
    ∧ decodeValues [("0", "2020"), ("1", "2021")] [("0", "GDP")] [("0", "IT")] [("0", "EUR")]
        [(1, 200), (0, 100)] ≠
      decodeValues [("0", "2020"), ("1", "2021")] [("0", "GDP")] [("0", "IT")] [("0", "EUR")]
        [(0, 100), (1, 200)] :=
  ⟨by decide, by decide⟩

/-- C9 amended: decode processes the value keys in the presentation
(dict insertion) order of the values mapping, so the table is the
grouping of the per-index observations in exactly that order; ascending
index order holds only when the mapping presents its keys ascending. -/
theorem c9_amended_presentation_order (tl nl gl ul : Axis) (vs : List (Nat × Int))
    (hnt : (tl.map Prod.fst).Nodup) (hnn : (nl.map Prod.fst).Nodup)
    (ht : tl ≠ []) (hn : nl ≠ []) (hg : gl ≠ []) (hu : ul ≠ []) :
    decodeValues tl nl gl ul vs =
      Except.ok (groupPairs (vs.map (specPair tl nl gl ul))) :=
  decodeValues_eq_group tl nl gl ul hnt hnn ht hn hg hu vs

/-- C9 amended witness: the presentation-order grouping applied to the
out-of-order concrete input. -/
theorem c9_witness :
    decodeValues [("0", "2020"), ("1", "2021")] [("0", "GDP")] [("0", "IT")] [("0", "EUR")]
        [(1, 200), (0, 100)] =
      Except.ok (groupPairs ([((1 : Nat), (200 : Int)), (0, 100)].map
        (specPair [("0", "2020"), ("1", "2021")] [("0", "GDP")] [("0", "IT")] [("0", "EUR")]))) :=
  c9_amended_presentation_order _ _ _ _ _ (by decide) (by decide) (by decide) (by decide)
    (by decide) (by decide)

/-- C10: on a payload that passes the dimension check and has at least
one value key, an empty time or na_item axis raises ZeroDivisionError
and, with those nonempty, an empty geo or unit axis raises IndexError,
both on the first value key; a table is returned only when all four
axes have at least one category. -/
theorem c10_empty_axis_failures (dims : List (String × Axis)) (tl nl gl ul : Axis)
    (kv : Nat × Int) (vs : List (Nat × Int))
    (hdt : dims.lookup "time" = some tl) (hdn : dims.lookup "na_item" = some nl)
    (hdg : dims.lookup "geo" = some gl) (hdu : dims.lookup "unit" = some ul) :
    ((tl = [] ∨ nl = []) →
      process_dataset_to_json ⟨some dims, kv :: vs⟩ = Except.error DecodeError.zeroDivision)
    ∧ (tl ≠ [] → nl ≠ [] → (gl = [] ∨ ul = []) →
      process_dataset_to_json ⟨some dims, kv :: vs⟩ = Except.error DecodeError.indexError)
    ∧ (∀ t, process_dataset_to_json ⟨some dims, kv :: vs⟩ = Except.ok (some t) →
      tl ≠ [] ∧ nl ≠ [] ∧ gl ≠ [] ∧ ul ≠ []) := by
  have hred := process_eq_decodeValues dims (kv :: vs) tl nl gl ul hdt hdn hdg hdu
  have hzero : (tl = [] ∨ nl = []) →
      process_dataset_to_json ⟨some dims, kv :: vs⟩ =
        Except.error DecodeError.zeroDivision := by
    intro h
    rw [hred, decodeLoop_error_head tl nl gl ul kv vs DecodeError.zeroDivision
      (decodeStep_zeroDivision tl nl gl ul [] kv h)]
  have hindex : tl ≠ [] → nl ≠ [] → (gl = [] ∨ ul = []) →
      process_dataset_to_json ⟨some dims, kv :: vs⟩ =
        Except.error DecodeError.indexError := by
    intro ht hn h
    rw [hred, decodeLoop_error_head tl nl gl ul kv vs DecodeError.indexError
      (decodeStep_indexError tl nl gl ul [] kv ht hn h)]
  refine ⟨hzero, hindex, ?_⟩
  intro t hok
  by_cases ht : tl = []
  · rw [hzero (Or.inl ht)] at hok
    simp at hok
  · by_cases hn : nl = []
    · rw [hzero (Or.inr hn)] at hok
      simp at hok
    · by_cases hg : gl = []
      · rw [hindex ht hn (Or.inl hg)] at hok
        simp at hok
      · by_cases hu : ul = []
        · rw [hindex ht hn (Or.inr hu)] at hok
          simp at hok
        · exact ⟨ht, hn, hg, hu⟩

/-- C10 witness: an empty geo axis with nonempty time and na_item axes
and one value key raises IndexError. -/
theorem c10_witness :
    process_dataset_to_json ⟨some [("time", [("0", "2020")]), ("na_item", [("0", "GDP")]),
        ("geo", []), ("unit", [("0", "EUR")])], [(0, 1)]⟩ =
      Except.error DecodeError.indexError :=
  (c10_empty_axis_failures
      [("time", [("0", "2020")]), ("na_item", [("0", "GDP")]), ("geo", []),
       ("unit", [("0", "EUR")])]
      [("0", "2020")] [("0", "GDP")] [] [("0", "EUR")] (0, 1) []
      (by decide) (by decide) (by decide) (by decide)).2.1
    (by decide) (by decide) (Or.inl rfl)
